import Mathlib

/-!
Shallow embedding of the HTTP client layer of the confluence-cli repository
(`src/confluence/client.py` and `src/confluence/errors.py`).

JSON values are modelled by an inductive `JVal`; the `requests` session is
replaced by an oracle `server : Nat → NetResult` giving the outcome of the
i-th HTTP call; the unbounded `while True` loops take an explicit fuel
argument, and each operation returns its outcome together with the next call
index and the trace of HTTP calls and sleeps it performed.
-/

namespace Confluence

/-- JSON values, as produced by `resp.json()`. Objects keep their fields in
insertion order; JSON numbers are modelled as integers (the fields the client
reads numerically are integer version numbers). -/
inductive JVal where
  | null
  | bool (b : Bool)
  | num (n : Int)
  | str (s : String)
  | arr (xs : List JVal)
  | obj (fs : List (String × JVal))

/-- Python `dict.get(k)` on a JSON value: `none` when the value is not an
object or the key is missing. -/
def jget (v : JVal) (k : String) : Option JVal :=
  match v with
  | JVal.obj fs => fs.lookup k
  | _ => none

/-- Python truthiness of a JSON value (`if payload:` etc.). -/
def jTruthy : JVal → Bool
  | JVal.null => false
  | JVal.bool b => b
  | JVal.num n => !(n == 0)
  | JVal.str s => !(s == "")
  | JVal.arr xs => !xs.isEmpty
  | JVal.obj fs => !fs.isEmpty

/-- Python `a or b` on strings (empty string is falsy). -/
def pyOrS (a b : String) : String := if a == "" then b else a

/-- Read field `k` of an optional JSON object as a string, giving `""` when
the payload is absent, the key is missing, or the value is not a string
(the error payload fields the client reads are strings). -/
def jStrField (payload : Option JVal) (k : String) : String :=
  match payload.bind (fun j => jget j k) with
  | some (JVal.str s) => s
  | _ => ""

/-- Python `str()` of the scalar JSON values the client converts to strings
(ancestor ids and parent ids). -/
def pyStr : JVal → String
  | JVal.str s => s
  | JVal.num n => toString n
  | JVal.bool b => if b then "True" else "False"
  | JVal.null => "None"
  | JVal.arr _ => ""
  | JVal.obj _ => ""

/-- Whether `cs` begins with the character list `ds`. -/
def leadsWith : List Char → List Char → Bool
  | [], _ => true
  | _ :: _, [] => false
  | a :: as, b :: bs => a == b && leadsWith as bs

/-- Whether the character list `needle` occurs inside `hay`. -/
def hasSub (needle : List Char) : List Char → Bool
  | [] => leadsWith needle []
  | c :: tl => leadsWith needle (c :: tl) || hasSub needle tl

/-- Python `needle in hay` on strings: substring occurrence. -/
def strContains (hay needle : String) : Bool :=
  hasSub needle.data hay.data

/-- Python `s.startswith(pre)`, via structural list recursion. -/
def pyStartsWith (s pre : String) : Bool := leadsWith pre.data s.data

/-- Python `s.strip()`: remove leading and trailing whitespace. -/
def pyStrip (s : String) : String :=
  String.mk ((((s.data.dropWhile Char.isWhitespace).reverse).dropWhile
    Char.isWhitespace).reverse)

/-- Python `s.lower()` on the ASCII strings the client compares. -/
def pyLower (s : String) : String := String.mk (s.data.map Char.toLower)

/-- The typed error taxonomy of `errors.py`, each carrying its detail text. -/
inductive ConfErr where
  | auth (detail : String)
  | notFound (detail : String)
  | conflict (detail : String)
  | rateLimited (detail : String)
  | serverError (detail : String)
  | validation (detail : String)

/-- Python `str(e)` of a taxonomy error: the detail it was raised with. -/
def ConfErr.detail : ConfErr → String
  | ConfErr.auth d => d
  | ConfErr.notFound d => d
  | ConfErr.conflict d => d
  | ConfErr.rateLimited d => d
  | ConfErr.serverError d => d
  | ConfErr.validation d => d

/-- The error classes, without their detail text. -/
inductive ErrKind where
  | auth
  | notFound
  | conflict
  | rateLimited
  | serverError
  | validation
deriving DecidableEq

/-- The class of a taxonomy error. -/
def ConfErr.kind : ConfErr → ErrKind
  | ConfErr.auth _ => ErrKind.auth
  | ConfErr.notFound _ => ErrKind.notFound
  | ConfErr.conflict _ => ErrKind.conflict
  | ConfErr.rateLimited _ => ErrKind.rateLimited
  | ConfErr.serverError _ => ErrKind.serverError
  | ConfErr.validation _ => ErrKind.validation

/-- `errors.raise_for_status`: maps a status code and optional JSON payload to
the error it raises, or `none` when it raises nothing (status below 400 or
above 599). -/
def raise_for_status (status_code : Nat) (message : String)
    (payload : Option JVal) : Option ConfErr :=
  let detail := message
  let detail :=
    if (payload.map jTruthy).getD false then
      let err_title := pyOrS (jStrField payload "message") (jStrField payload "title")
      let err_reason := jStrField payload "reason"
      if err_title ≠ "" ∨ err_reason ≠ "" then
        pyStrip (detail ++ " " ++ err_title ++ " " ++ err_reason)
      else detail
    else detail
  if status_code = 401 ∨ status_code = 403 then some (ConfErr.auth detail)
  else if status_code = 404 then some (ConfErr.notFound detail)
  else if status_code = 409 then some (ConfErr.conflict detail)
  else if status_code = 429 then some (ConfErr.rateLimited detail)
  else if 500 ≤ status_code ∧ status_code < 600 then some (ConfErr.serverError detail)
  else if 400 ≤ status_code ∧ status_code < 500 then some (ConfErr.validation detail)
  else none

/-- A completed HTTP response: status code, optional numeric `Retry-After`
header (seconds), the parsed JSON body (`none` when `resp.json()` raises),
and the raw response text. -/
structure HttpResp where
  status : Nat
  retryAfter : Option ℚ
  jsonBody : Option JVal
  text : String

/-- The value `_request` returns for a successful response: the parsed JSON,
falling back to a raw-text/status structure when parsing fails. -/
def okBody (r : HttpResp) : JVal :=
  match r.jsonBody with
  | some j => j
  | none => JVal.obj [("raw", JVal.str r.text), ("status", JVal.num r.status)]

/-- Outcome of one `session.request` call: a network-level exception
(`requests.RequestException`, identified by its message) or a completed
response. -/
inductive NetResult where
  | exn (e : String)
  | resp (r : HttpResp)

/-- A raised Python exception as observed by callers of `_request`: either a
taxonomy error or a network error propagated unchanged. -/
inductive Exc where
  | conf (e : ConfErr)
  | net (e : String)

/-- Python `str(e)` of a raised exception. -/
def excMsg : Exc → String
  | Exc.conf e => e.detail
  | Exc.net e => e

/-- Result of `_request`: a returned JSON value, a raised exception, or fuel
exhaustion (the source loop would still be running). -/
inductive Outcome where
  | ok (v : JVal)
  | exc (e : Exc)
  | fuelOut

/-- One HTTP call as handed to `session.request`: method, full URL, optional
query parameters and optional JSON body. -/
structure ReqCall where
  method : String
  url : String
  params : Option (List (String × JVal))
  body : Option JVal

/-- Observable events of a client operation: HTTP calls (with the server's
answer) and sleeps, in order. -/
inductive Ev where
  | call (rc : ReqCall) (res : NetResult)
  | sleep (d : ℚ)

/-- Drop trailing slashes: Python `base_url.rstrip('/')`. -/
def rstripSlash (s : String) : String :=
  String.mk (((s.data.reverse).dropWhile (fun c => c == '/')).reverse)

/-- Client configuration (`ConfluenceClient.__init__`), after the base URL
has been stripped of trailing slashes. The socket timeout and the bearer
token do not enter the control flow and are omitted; the backoff base is
modelled as a rational number. -/
structure Client where
  base_url : String
  retries : Nat
  backoff : ℚ
  verbose : Bool

/-- A client as `__init__` builds it from a raw base URL. -/
def mkClient (base_url : String) (retries : Nat) (backoff : ℚ)
    (verbose : Bool) : Client :=
  Client.mk (rstripSlash base_url) retries backoff verbose

/-- URL construction at the top of `_request`. -/
def buildUrl (c : Client) (path : String) : String :=
  if pyStartsWith path "/" then c.base_url ++ path else c.base_url ++ "/" ++ path

/-- `set(expected or {200, 201})`: the caller's success set, defaulting when
it is `None` or empty. -/
def expectedSet (e : Option (List Nat)) : List Nat :=
  match e with
  | none => [200, 201]
  | some [] => [200, 201]
  | some l => l

/-- The transiently-retried status codes of `_request`. -/
def transientStatuses : List Nat := [429, 500, 502, 503, 504]

/-- The `while True` loop of `_request`, with explicit fuel. `attempt0` is
the number of attempts already made and `k` the index of the next HTTP call;
returns the outcome, the next call index, and the event trace. -/
def reqLoop (c : Client) (server : Nat → NetResult) (rc : ReqCall)
    (expSet : List Nat) : Nat → Nat → Nat → Outcome × Nat × List Ev
  | 0, _, k => (Outcome.fuelOut, k, [])
  | fuel + 1, attempt0, k =>
    let attempt := attempt0 + 1
    match server k with
    | NetResult.exn e =>
      if attempt ≤ c.retries then
        let d := c.backoff * 2 ^ (attempt - 1)
        let r := reqLoop c server rc expSet fuel attempt (k + 1)
        (r.1, r.2.1, Ev.call rc (NetResult.exn e) :: Ev.sleep d :: r.2.2)
      else
        (Outcome.exc (Exc.net e), k + 1, [Ev.call rc (NetResult.exn e)])
    | NetResult.resp resp =>
      if expSet.contains resp.status then
        (Outcome.ok (okBody resp), k + 1, [Ev.call rc (NetResult.resp resp)])
      else if transientStatuses.contains resp.status ∧ attempt ≤ c.retries then
        let d := match resp.retryAfter with
          | some ra => ra
          | none => c.backoff * 2 ^ (attempt - 1)
        let r := reqLoop c server rc expSet fuel attempt (k + 1)
        (r.1, r.2.1, Ev.call rc (NetResult.resp resp) :: Ev.sleep d :: r.2.2)
      else
        match raise_for_status resp.status (rc.method ++ " " ++ rc.url) resp.jsonBody with
        | some e => (Outcome.exc (Exc.conf e), k + 1, [Ev.call rc (NetResult.resp resp)])
        | none =>
          let r := reqLoop c server rc expSet fuel attempt (k + 1)
          (r.1, r.2.1, Ev.call rc (NetResult.resp resp) :: r.2.2)

/-- `ConfluenceClient._request`. -/
def _request (c : Client) (server : Nat → NetResult) (fuel k : Nat)
    (method path : String) (expected : Option (List Nat))
    (params : Option (List (String × JVal))) (json : Option JVal) :
    Outcome × Nat × List Ev :=
  reqLoop c server (ReqCall.mk method (buildUrl c path) params json)
    (expectedSet expected) fuel 0 k

/-- `ConfluenceClient.get_page`. -/
def get_page (c : Client) (server : Nat → NetResult) (fuel k : Nat)
    (page_id : String) : Outcome × Nat × List Ev :=
  _request c server fuel k "GET" ("/rest/api/content/" ++ page_id) none
    (some [("expand", JVal.str "version,ancestors,body.storage,_links")]) none

/-- `int((current.get("version") or {}).get("number", 0))`, with version
numbers as JSON integers. -/
def currentVersionNumber (current : JVal) : Int :=
  let v := match jget current "version" with
    | some j => if jTruthy j then j else JVal.obj []
    | none => JVal.obj []
  match jget v "number" with
  | some (JVal.num n) => n
  | _ => 0

/-- `title or current.get("title")`: the explicit title when truthy, else the
fetched page's title (JSON null when the fetched page has none). -/
def mergedTitle (title : Option String) (current : JVal) : JVal :=
  let fallback := (jget current "title").getD JVal.null
  match title with
  | some t => if t == "" then fallback else JVal.str t
  | none => fallback

/-- The PUT payload `update_page` builds. The type and title values are
computed once from the first fetch; the conflict retry only overwrites
`payload["version"]["number"]`. -/
def updatePayloadWith (page_id : String) (typeVal titleVal : JVal)
    (minor_edit : Bool) (body_html : String) (new_version : Int) : JVal :=
  JVal.obj [
    ("id", JVal.str page_id),
    ("type", typeVal),
    ("title", titleVal),
    ("version", JVal.obj [
      ("number", JVal.num new_version),
      ("minorEdit", JVal.bool minor_edit)]),
    ("body", JVal.obj [
      ("storage", JVal.obj [
        ("value", JVal.str body_html),
        ("representation", JVal.str "storage")])])]

/-- `str(bool(x)).lower()`, as sent in the `notifyWatchers` parameter. -/
def pyBoolStr (b : Bool) : String := if b then "true" else "false"

/-- `ConfluenceClient.update_page`: fetch the current page, PUT the new body
with version incremented by one, and when the caught exception's string form
contains `"409"` (and `_retry` is set), re-fetch and PUT exactly once more. -/
def update_page (c : Client) (server : Nat → NetResult) (fuel k : Nat)
    (page_id body_html : String) (title : Option String)
    (minor_edit notify_watchers retry0 : Bool) : Outcome × Nat × List Ev :=
  match get_page c server fuel k page_id with
  | (Outcome.ok current, k1, tr1) =>
    let current_version := currentVersionNumber current
    let new_version := current_version + 1
    let typeVal := (jget current "type").getD (JVal.str "page")
    let titleVal := mergedTitle title current
    let putParams := some [("notifyWatchers", JVal.str (pyBoolStr notify_watchers))]
    let payload := updatePayloadWith page_id typeVal titleVal minor_edit body_html new_version
    match _request c server fuel k1 "PUT" ("/rest/api/content/" ++ page_id)
        (some [200]) putParams (some payload) with
    | (Outcome.ok j, k2, tr2) => (Outcome.ok j, k2, tr1 ++ tr2)
    | (Outcome.exc e, k2, tr2) =>
      if retry0 && strContains (excMsg e) "409" then
        match get_page c server fuel k2 page_id with
        | (Outcome.ok cur2, k3, tr3) =>
          let v2 := currentVersionNumber cur2
          let payload2 := updatePayloadWith page_id typeVal titleVal minor_edit body_html (v2 + 1)
          let r4 := _request c server fuel k3 "PUT" ("/rest/api/content/" ++ page_id)
            (some [200]) putParams (some payload2)
          (r4.1, r4.2.1, tr1 ++ tr2 ++ tr3 ++ r4.2.2)
        | (o3, k3, tr3) => (o3, k3, tr1 ++ tr2 ++ tr3)
      else (Outcome.exc e, k2, tr1 ++ tr2)
    | (Outcome.fuelOut, k2, tr2) => (Outcome.fuelOut, k2, tr1 ++ tr2)
  | (o, k1, tr1) => (o, k1, tr1)

/-- `res.get("results", [])`, read as a list (a missing, null or non-list
value yields the empty list). -/
def resultsList (res : JVal) : List JVal :=
  match (jget res "results").getD (JVal.arr []) with
  | JVal.arr xs => xs
  | _ => []

/-- Outcome of an operation returning a list of JSON values. -/
inductive ListOutcome where
  | ok (xs : List JVal)
  | exc (e : Exc)
  | fuelOut

/-- `ConfluenceClient.list_children`. -/
def list_children (c : Client) (server : Nat → NetResult) (fuel k : Nat)
    (page_id : String) (limit start : Int) : ListOutcome × Nat × List Ev :=
  let params := some [
    ("limit", JVal.num (max 1 (min limit 100))),
    ("start", JVal.num (max 0 start)),
    ("expand", JVal.str "_links"),
    ("status", JVal.str "current")]
  match _request c server fuel k "GET"
      ("/rest/api/content/" ++ page_id ++ "/child/page") none params none with
  | (Outcome.ok res, k1, tr) => (ListOutcome.ok (resultsList res), k1, tr)
  | (Outcome.exc e, k1, tr) => (ListOutcome.exc e, k1, tr)
  | (Outcome.fuelOut, k1, tr) => (ListOutcome.fuelOut, k1, tr)

/-- The `while True` pagination loop of `list_all_children`, with explicit
loop fuel; returns the items gathered from offset `start` on. -/
def listAllLoop (c : Client) (server : Nat → NetResult) (fuel : Nat)
    (page_id : String) : Nat → Int → Nat → ListOutcome × Nat × List Ev
  | 0, _, k => (ListOutcome.fuelOut, k, [])
  | lfuel + 1, start, k =>
    match list_children c server fuel k page_id 100 start with
    | (ListOutcome.ok chunk, k1, tr) =>
      if chunk.isEmpty then (ListOutcome.ok [], k1, tr)
      else if chunk.length < 100 then (ListOutcome.ok chunk, k1, tr)
      else
        match listAllLoop c server fuel page_id lfuel (start + 100) k1 with
        | (ListOutcome.ok rest, k2, tr2) => (ListOutcome.ok (chunk ++ rest), k2, tr ++ tr2)
        | (o, k2, tr2) => (o, k2, tr ++ tr2)
    | (o, k1, tr) => (o, k1, tr)

/-- `ConfluenceClient.list_all_children`. -/
def list_all_children (c : Client) (server : Nat → NetResult)
    (fuel lfuel k : Nat) (page_id : String) : ListOutcome × Nat × List Ev :=
  listAllLoop c server fuel page_id lfuel 0 k

/-- `r.get("ancestors", [])`, read as a list. -/
def ancestorsList (r : JVal) : List JVal :=
  match (jget r "ancestors").getD (JVal.arr []) with
  | JVal.arr xs => xs
  | _ => []

/-- Whether one of `r`'s ancestors satisfies
`str(anc.get("id")) == str(parent_id)`. -/
def hasAncestor (r : JVal) (parent_id : String) : Bool :=
  (ancestorsList r).any (fun anc => pyStr ((jget anc "id").getD JVal.null) == parent_id)

/-- Outcome of an operation returning an optional JSON value. -/
inductive OptOutcome where
  | ok (p : Option JVal)
  | exc (e : Exc)
  | fuelOut

/-- `ConfluenceClient.find_page_by_title`. -/
def find_page_by_title (c : Client) (server : Nat → NetResult) (fuel k : Nat)
    (title space_key : String) (parent_id : Option String) :
    OptOutcome × Nat × List Ev :=
  let params := some [
    ("type", JVal.str "page"),
    ("spaceKey", JVal.str space_key),
    ("title", JVal.str title),
    ("expand", JVal.str "ancestors,version,_links"),
    ("status", JVal.str "current"),
    ("limit", JVal.num 25)]
  match _request c server fuel k "GET" "/rest/api/content" none params none with
  | (Outcome.ok res, k1, tr) =>
    let results := resultsList res
    if results.isEmpty then (OptOutcome.ok none, k1, tr)
    else
      match parent_id with
      | none => (OptOutcome.ok results.head?, k1, tr)
      | some pid => (OptOutcome.ok (results.find? (fun r => hasAncestor r pid)), k1, tr)
  | (Outcome.exc e, k1, tr) => (OptOutcome.exc e, k1, tr)
  | (Outcome.fuelOut, k1, tr) => (OptOutcome.fuelOut, k1, tr)

/-- Item title read as a string for the client-side filter of
`list_pages_in_space`: `i.get("title", "")`. -/
def itemTitle (i : JVal) : String :=
  match jget i "title" with
  | some (JVal.str s) => s
  | _ => ""

/-- Python truthiness of the optional `title_contains` argument:
`if title_contains:` is false for `None` and for the empty string. -/
def tcTruthy (title_contains : Option String) : Option String :=
  match title_contains with
  | some t => if t == "" then none else some t
  | none => none

/-- The query parameters `list_pages_in_space` builds: the base dict, plus a
`title` key appended when `title_contains` is truthy. -/
def lpsParams (space_key : String) (limit start : Int)
    (title_contains : Option String) : List (String × JVal) :=
  let baseParams := [
    ("type", JVal.str "page"),
    ("spaceKey", JVal.str space_key),
    ("limit", JVal.num (max 1 (min limit 100))),
    ("start", JVal.num (max 0 start)),
    ("expand", JVal.str "_links"),
    ("status", JVal.str "current")]
  match tcTruthy title_contains with
  | some t => baseParams ++ [("title", JVal.str t)]
  | none => baseParams

/-- `ConfluenceClient.list_pages_in_space`. -/
def list_pages_in_space (c : Client) (server : Nat → NetResult) (fuel k : Nat)
    (space_key : String) (limit start : Int) (title_contains : Option String) :
    ListOutcome × Nat × List Ev :=
  let tc := tcTruthy title_contains
  match _request c server fuel k "GET" "/rest/api/content" none
      (some (lpsParams space_key limit start title_contains)) none with
  | (Outcome.ok res, k1, tr) =>
    let items := resultsList res
    let items := match tc with
      | some t => items.filter (fun i => strContains (pyLower (itemTitle i)) (pyLower t))
      | none => items
    (ListOutcome.ok items, k1, tr)
  | (Outcome.exc e, k1, tr) => (ListOutcome.exc e, k1, tr)
  | (Outcome.fuelOut, k1, tr) => (ListOutcome.fuelOut, k1, tr)

/-- The normalization loop of `search_cql`: keep each result's `content`
object (`r.get("content") or {}`) when its `type` equals `"page"`. -/
def normalizeSearch (results : List JVal) : List JVal :=
  results.filterMap (fun r =>
    let content := match jget r "content" with
      | some cv => if jTruthy cv then cv else JVal.obj []
      | none => JVal.obj []
    match jget content "type" with
    | some (JVal.str s) => if s == "page" then some content else none
    | _ => none)

/-- `ConfluenceClient.search_cql`. -/
def search_cql (c : Client) (server : Nat → NetResult) (fuel k : Nat)
    (cql : String) (limit start : Int) : ListOutcome × Nat × List Ev :=
  let params := some [
    ("cql", JVal.str cql),
    ("limit", JVal.num (max 1 (min limit 100))),
    ("start", JVal.num (max 0 start)),
    ("expand", JVal.str "content._links")]
  match _request c server fuel k "GET" "/rest/api/search" none params none with
  | (Outcome.ok res, k1, tr) => (ListOutcome.ok (normalizeSearch (resultsList res)), k1, tr)
  | (Outcome.exc e, k1, tr) => (ListOutcome.exc e, k1, tr)
  | (Outcome.fuelOut, k1, tr) => (ListOutcome.fuelOut, k1, tr)

/-- Number of HTTP calls in a trace. -/
def countCalls : List Ev → Nat
  | [] => 0
  | Ev.call _ _ :: t => countCalls t + 1
  | Ev.sleep _ :: t => countCalls t

/-- Number of HTTP calls in a trace whose method is `m`. -/
def countMethod (m : String) : List Ev → Nat
  | [] => 0
  | Ev.call rc _ :: t => (if rc.method == m then 1 else 0) + countMethod m t
  | Ev.sleep _ :: t => countMethod m t

/-- The sleep durations of a trace, in order. -/
def sleepList : List Ev → List ℚ
  | [] => []
  | Ev.call _ _ :: t => sleepList t
  | Ev.sleep d :: t => d :: sleepList t

/-- The HTTP calls of a trace, in order. -/
def callsOf : List Ev → List ReqCall
  | [] => []
  | Ev.call rc _ :: t => rc :: callsOf t
  | Ev.sleep _ :: t => callsOf t

/-- The `i`-th HTTP call of a trace. -/
def nthCall (i : Nat) (tr : List Ev) : Option ReqCall :=
  (callsOf tr)[i]?

/-- The query parameters of the first HTTP call of a trace. -/
def sentParams (tr : List Ev) : Option (List (String × JVal)) :=
  (nthCall 0 tr).bind (fun rc => rc.params)

/-- The value of query parameter `key` in the first HTTP call of a trace. -/
def sentParamVal (key : String) (tr : List Ev) : Option JVal :=
  (sentParams tr).bind (List.lookup key)

/-- The server's answers to the HTTP calls of a trace, in order. -/
def callResults : List Ev → List NetResult
  | [] => []
  | Ev.call _ res :: t => res :: callResults t
  | Ev.sleep _ :: t => callResults t

/-- The status code of the completed response answering the `i`-th HTTP call
of a trace. -/
def nthCallStatus (i : Nat) (tr : List Ev) : Option Nat :=
  ((callResults tr)[i]?).bind (fun nr =>
    match nr with
    | NetResult.resp r => some r.status
    | NetResult.exn _ => none)

/-- The error class of a raised taxonomy error, if the outcome is one. -/
def raisedKind : Outcome → Option ErrKind
  | Outcome.exc (Exc.conf e) => some e.kind
  | _ => none

/-- Modelled from the spec: the status-to-error-class table of §7
(401/403→Auth, 404→NotFound, 409→Conflict, 429→RateLimited, 5xx→ServerError,
other 4xx→Validation), for comparison with `raise_for_status`. -/
def specStatusKind (s : Nat) : ErrKind :=
  if s = 401 ∨ s = 403 then ErrKind.auth
  else if s = 404 then ErrKind.notFound
  else if s = 409 then ErrKind.conflict
  else if s = 429 then ErrKind.rateLimited
  else if 500 ≤ s then ErrKind.serverError
  else ErrKind.validation

/-- The HTTP call `list_children` makes, with the clamped pagination values
it actually sends (`limit` is always 100 in `list_all_children`). -/
def childCall (c : Client) (page_id : String) (sentStart : Int) : ReqCall :=
  ReqCall.mk "GET" (buildUrl c ("/rest/api/content/" ++ page_id ++ "/child/page"))
    (some [
      ("limit", JVal.num 100),
      ("start", JVal.num sentStart),
      ("expand", JVal.str "_links"),
      ("status", JVal.str "current")]) none

/-- Concatenation of pages `0` through `n`. -/
def flattenPages (pages : Nat → List JVal) (n : Nat) : List JVal :=
  ((List.range (n + 1)).map pages).flatten

/-! Concrete fixtures used by counterexamples, code-bug evaluations and
witnesses. -/

/-- A completed 200 response carrying JSON body `j`. -/
def responseOk (j : JVal) : NetResult :=
  NetResult.resp (HttpResp.mk 200 none (some j) "")

/-- A completed response with status `s`, no parseable JSON body and empty
text. -/
def responseStatus (s : Nat) : NetResult :=
  NetResult.resp (HttpResp.mk s none none "")

/-- A page JSON value of version `v`, titled `"T"`. -/
def pageJ (v : Int) : JVal :=
  JVal.obj [("type", JVal.str "page"), ("title", JVal.str "T"),
    ("version", JVal.obj [("number", JVal.num v)])]

/-- A listing body `{"results": [...]}`. -/
def resultsObj (xs : List JVal) : JVal :=
  JVal.obj [("results", JVal.arr xs)]

/-- The trace event of one successful `list_children` call inside
`list_all_children`: the request as built (with the clamp expressions still
unevaluated) answered by a 200 response whose results are `xs`. -/
def childEv (c : Client) (page_id : String) (s : Int) (xs : List JVal) : Ev :=
  Ev.call (ReqCall.mk "GET"
      (buildUrl c ("/rest/api/content/" ++ page_id ++ "/child/page"))
      (some [("limit", JVal.num (max 1 (min (100 : Int) 100))),
             ("start", JVal.num (max 0 s)),
             ("expand", JVal.str "_links"),
             ("status", JVal.str "current")]) none)
    (NetResult.resp (HttpResp.mk 200 none (some (resultsObj xs)) ""))

/-- A client with the constructor's default retry settings
(`retries=3, backoff=0.5`). -/
def cX : Client := mkClient "https://x" 3 (1/2) false

/-- Server behavior: the fetch succeeds on a version-1 page, the first PUT
answers a genuine 409 with an unparseable body, everything after answers
200. -/
def serverConflict : Nat → NetResult
  | 0 => responseOk (pageJ 1)
  | 1 => responseStatus 409
  | _ => responseOk (JVal.bool true)

/-- Server behavior for a page whose id contains `"409"`: the fetch
succeeds, the first PUT answers 404 (NotFound, not a conflict), the re-fetch
sees version 5 and the second PUT answers 200. -/
def serverNotFoundPut : Nat → NetResult
  | 0 => responseOk (pageJ 1)
  | 1 => responseStatus 404
  | 2 => responseOk (pageJ 5)
  | _ => responseOk (JVal.bool true)

/-- A client with `retries=0`. -/
def cNoRetry : Client := mkClient "https://x" 0 (1/2) false

/-- The 404 response used in the C2 scenario. -/
def respNotFound : HttpResp := HttpResp.mk 404 none none ""

/-- Server answering 404 to every call. -/
def serverAll404 : Nat → NetResult := fun _ => NetResult.resp respNotFound

/-- A client with `retries=2, backoff=0`. -/
def cTwoRetries : Client := mkClient "https://x" 2 0 false

/-- Response sequence `[500, 200]` (the 200 carries body `{"ok": true}`). -/
def rs500then200 : Nat → HttpResp
  | 0 => HttpResp.mk 500 none none ""
  | _ => HttpResp.mk 200 none (some (JVal.obj [("ok", JVal.bool true)])) ""

/-- A 204 response with no parseable body. -/
def rs204 : Nat → HttpResp := fun _ => HttpResp.mk 204 none none ""

/-- Child pages for the C5 scenario: one full page of 100 items, then an
empty page. -/
def pagesW : Nat → List JVal
  | 0 => List.replicate 100 (JVal.num 7)
  | _ => []

/-- Server answering each children request with the corresponding page of
`pagesW`. -/
def serverChildren : Nat → NetResult :=
  fun i => responseOk (resultsObj (pagesW i))

/-- A search result whose only ancestor has id 99. -/
def rAnc99 : JVal :=
  JVal.obj [("id", JVal.str "10"), ("ancestors", JVal.arr [JVal.obj [("id", JVal.num 99)]])]

/-- A search result whose only ancestor has id 5. -/
def rAnc5 : JVal :=
  JVal.obj [("id", JVal.str "11"), ("ancestors", JVal.arr [JVal.obj [("id", JVal.num 5)]])]

/-- A title-search response with two results, ancestored under 99 and 5. -/
def resTwoResults : JVal := resultsObj [rAnc99, rAnc5]

/-- Server answering every call with the two-result title search response. -/
def serverTwoResults : Nat → NetResult := fun _ => responseOk resTwoResults

/-! Helper lemmas. -/

theorem raise_for_status_mapped (s : Nat) (msg : String) (payload : Option JVal)
    (h4 : 400 ≤ s) (h6 : s < 600) :
    ∃ e, raise_for_status s msg payload = some e ∧ ConfErr.kind e = specStatusKind s := by
  unfold raise_for_status specStatusKind
  split_ifs <;> first
    | exact ⟨_, rfl, rfl⟩
    | omega

theorem raise_for_status_none (s : Nat) (msg : String) (payload : Option JVal)
    (h : s < 400 ∨ 600 ≤ s) :
    raise_for_status s msg payload = none := by
  unfold raise_for_status
  split_ifs <;> first
    | rfl
    | omega

theorem countCalls_append (a b : List Ev) :
    countCalls (a ++ b) = countCalls a + countCalls b := by
  induction a with
  | nil => simp [countCalls]
  | cons e t ih =>
    cases e with
    | call rc res => simp [countCalls, ih]; omega
    | sleep d => simp [countCalls, ih]

theorem callsOf_append (a b : List Ev) :
    callsOf (a ++ b) = callsOf a ++ callsOf b := by
  induction a with
  | nil => simp [callsOf]
  | cons e t ih => cases e <;> simp [callsOf, ih]

theorem sleepList_append (a b : List Ev) :
    sleepList (a ++ b) = sleepList a ++ sleepList b := by
  induction a with
  | nil => simp [sleepList]
  | cons e t ih => cases e <;> simp [sleepList, ih]

theorem countCalls_eq_length (tr : List Ev) :
    countCalls tr = (callsOf tr).length := by
  induction tr with
  | nil => rfl
  | cons e t ih => cases e <;> simp [countCalls, callsOf, ih]

theorem reqLoop_success_step (c : Client) (server : Nat → NetResult)
    (rc : ReqCall) (expSet : List Nat) (fuel attempt0 k : Nat) (r : HttpResp)
    (hs : server k = NetResult.resp r)
    (hexp : expSet.contains r.status = true) :
    reqLoop c server rc expSet (fuel + 1) attempt0 k =
      (Outcome.ok (okBody r), k + 1, [Ev.call rc (NetResult.resp r)]) := by
  simp only [reqLoop, hs, hexp, if_true]

theorem reqLoop_raise_step (c : Client) (server : Nat → NetResult)
    (rc : ReqCall) (expSet : List Nat) (fuel attempt0 k : Nat) (r : HttpResp)
    (e : ConfErr)
    (hs : server k = NetResult.resp r)
    (hexp : expSet.contains r.status = false)
    (htr : transientStatuses.contains r.status = true → ¬ (attempt0 + 1 ≤ c.retries))
    (hrs : raise_for_status r.status (rc.method ++ " " ++ rc.url) r.jsonBody = some e) :
    reqLoop c server rc expSet (fuel + 1) attempt0 k =
      (Outcome.exc (Exc.conf e), k + 1, [Ev.call rc (NetResult.resp r)]) := by
  have hnt : ¬ (transientStatuses.contains r.status = true ∧ attempt0 + 1 ≤ c.retries) := by
    rintro ⟨h1, h2⟩
    exact htr h1 h2
  simp only [reqLoop, hs, hexp, if_false, Bool.false_eq_true]
  rw [if_neg hnt, hrs]

theorem nthCall_zero_reqLoop (c : Client) (server : Nat → NetResult)
    (rc : ReqCall) (expSet : List Nat) (fuel attempt0 k : Nat) :
    nthCall 0 ((reqLoop c server rc expSet (fuel + 1) attempt0 k).2.2) = some rc := by
  cases hk : server k with
  | exn e =>
    simp only [reqLoop, hk]
    split <;> simp [nthCall, callsOf]
  | resp r =>
    simp only [reqLoop, hk]
    split
    · simp [nthCall, callsOf]
    · split
      · simp [nthCall, callsOf]
      · split <;> simp [nthCall, callsOf]

/-! Claims. -/

/-- C2: a completed response whose status is not in the caller's success set
and is not transiently retried (transient statuses only arise here with an
exhausted budget, `retries = 0`) makes `_request` raise exactly one taxonomy
error after exactly one HTTP call, and the raised error's class agrees with
the spec's table `specStatusKind`: 401/403→Auth, 404→NotFound, 409→Conflict,
429→RateLimited, 5xx→ServerError, other 4xx→Validation. -/
theorem C2_status_error_mapping (c : Client) (server : Nat → NetResult)
    (fuel k : Nat) (method path : String) (expected : Option (List Nat))
    (params : Option (List (String × JVal))) (json : Option JVal) (r : HttpResp)
    (hs : server k = NetResult.resp r)
    (hexp : (expectedSet expected).contains r.status = false)
    (hnr : transientStatuses.contains r.status = true → c.retries = 0)
    (h4 : 400 ≤ r.status) (h6 : r.status < 600) :
    raisedKind (_request c server (fuel + 1) k method path expected params json).1 =
      some (specStatusKind r.status) ∧
    countCalls (_request c server (fuel + 1) k method path expected params json).2.2 = 1 := by
  obtain ⟨e, he, hke⟩ :=
    raise_for_status_mapped r.status (method ++ " " ++ buildUrl c path) r.jsonBody h4 h6
  have step := reqLoop_raise_step c server
    (ReqCall.mk method (buildUrl c path) params json) (expectedSet expected)
    fuel 0 k r e hs hexp (fun h1 _ => by have := hnr h1; omega) he
  unfold _request
  rw [step]
  exact ⟨by simp [raisedKind, hke], rfl⟩

/-- C2 witness: with `retries=0`, a single 404 response makes `_request`
raise the NotFound-class error immediately, after exactly one call. -/
theorem C2_status_error_mapping_witness :
    raisedKind (_request cNoRetry serverAll404 5 0 "GET" "/nope" none none none).1 =
      some ErrKind.notFound ∧
    countCalls (_request cNoRetry serverAll404 5 0 "GET" "/nope" none none none).2.2 = 1 :=
  C2_status_error_mapping cNoRetry serverAll404 4 0 "GET" "/nope" none none none
    respNotFound rfl (by decide) (fun _ => rfl) (by decide) (by decide)

theorem reqLoop_out_of_range_loops (c : Client) (rs : Nat → HttpResp)
    (rc : ReqCall) (expSet : List Nat)
    (hexp : ∀ i, expSet.contains (rs i).status = false)
    (htrans : ∀ i, transientStatuses.contains (rs i).status = false)
    (hstat : ∀ i, (rs i).status < 400 ∨ 600 ≤ (rs i).status) :
    ∀ fuel attempt0 k,
      (reqLoop c (fun i => NetResult.resp (rs i)) rc expSet fuel attempt0 k).1 =
        Outcome.fuelOut ∧
      countCalls (reqLoop c (fun i => NetResult.resp (rs i)) rc expSet fuel attempt0 k).2.2 =
        fuel ∧
      sleepList (reqLoop c (fun i => NetResult.resp (rs i)) rc expSet fuel attempt0 k).2.2 =
        [] := by
  intro fuel
  induction fuel with
  | zero => intro attempt0 k; exact ⟨rfl, rfl, rfl⟩
  | succ f ih =>
    intro attempt0 k
    have hrfs := raise_for_status_none (rs k).status (rc.method ++ " " ++ rc.url)
      (rs k).jsonBody (hstat k)
    simp only [reqLoop, hexp k, htrans k, hrfs, Bool.false_eq_true, if_false,
      false_and, countCalls, sleepList]
    obtain ⟨h1, h2, h3⟩ := ih (attempt0 + 1) (k + 1)
    exact ⟨h1, by rw [h2], h3⟩

/-- C9: when every completed response has a status outside the success set,
outside the transient set, and outside 400-599 (e.g. 204), `raise_for_status`
raises nothing and `_request` never terminates: for every fuel bound the loop
has made exactly `fuel` calls with no sleeps and is still running. -/
theorem C9_nontermination (c : Client) (rs : Nat → HttpResp) (k : Nat)
    (method path : String) (expected : Option (List Nat))
    (params : Option (List (String × JVal))) (json : Option JVal)
    (hexp : ∀ i, (expectedSet expected).contains (rs i).status = false)
    (htrans : ∀ i, transientStatuses.contains (rs i).status = false)
    (hstat : ∀ i, (rs i).status < 400 ∨ 600 ≤ (rs i).status) :
    ∀ fuel,
      (_request c (fun i => NetResult.resp (rs i)) fuel k
          method path expected params json).1 = Outcome.fuelOut ∧
      countCalls ((_request c (fun i => NetResult.resp (rs i)) fuel k
          method path expected params json).2.2) = fuel ∧
      sleepList ((_request c (fun i => NetResult.resp (rs i)) fuel k
          method path expected params json).2.2) = [] :=
  fun fuel =>
    reqLoop_out_of_range_loops c rs
      (ReqCall.mk method (buildUrl c path) params json) (expectedSet expected)
      hexp htrans hstat fuel 0 k

/-- C9 witness: a server always answering 204 keeps the default client's
`_request` looping: at fuel 7 it has made 7 calls, slept never, and not
returned. -/
theorem C9_nontermination_witness :
    (_request cX (fun i => NetResult.resp (rs204 i)) 7 0
        "GET" "/x" none none none).1 = Outcome.fuelOut ∧
    countCalls ((_request cX (fun i => NetResult.resp (rs204 i)) 7 0
        "GET" "/x" none none none).2.2) = 7 ∧
    sleepList ((_request cX (fun i => NetResult.resp (rs204 i)) 7 0
        "GET" "/x" none none none).2.2) = [] :=
  C9_nontermination cX rs204 0 "GET" "/x" none none none
    (fun _ => rfl) (fun _ => rfl) (fun _ => Or.inl (show (204:Nat) < 400 by decide)) 7

theorem reqLoop_transient_run (c : Client) (server : Nat → NetResult)
    (rc : ReqCall) (expSet : List Nat) :
    ∀ (n : Nat) (rs : Nat → HttpResp) (fuel attempt0 k : Nat),
      (∀ i, i ≤ n → server (k + i) = NetResult.resp (rs i)) →
      n + attempt0 ≤ c.retries → n < fuel →
      (∀ i, i < n → transientStatuses.contains (rs i).status = true ∧
        expSet.contains (rs i).status = false) →
      expSet.contains (rs n).status = true →
      (reqLoop c server rc expSet fuel attempt0 k).1 = Outcome.ok (okBody (rs n)) ∧
      (reqLoop c server rc expSet fuel attempt0 k).2.1 = k + n + 1 ∧
      countCalls (reqLoop c server rc expSet fuel attempt0 k).2.2 = n + 1 := by
  intro n
  induction n with
  | zero =>
    intro rs fuel attempt0 k hserv _ hfuel _ hsucc
    cases fuel with
    | zero => omega
    | succ f =>
      have h0 : server k = NetResult.resp (rs 0) := by
        have := hserv 0 (Nat.le_refl 0)
        rwa [Nat.add_zero] at this
      rw [reqLoop_success_step c server rc expSet f attempt0 k (rs 0) h0 hsucc]
      exact ⟨rfl, rfl, rfl⟩
  | succ n ih =>
    intro rs fuel attempt0 k hserv hbud hfuel htr hsucc
    cases fuel with
    | zero => omega
    | succ f =>
      have h0 : server k = NetResult.resp (rs 0) := by
        have := hserv 0 (Nat.zero_le _)
        rwa [Nat.add_zero] at this
      have ht0 := htr 0 (Nat.succ_pos n)
      have hle : attempt0 + 1 ≤ c.retries := by omega
      have IH := ih (fun i => rs (i + 1)) f (attempt0 + 1) (k + 1)
        (fun i hi => by
          have := hserv (i + 1) (Nat.succ_le_succ hi)
          rwa [show k + (i + 1) = k + 1 + i by omega] at this)
        (by omega) (by omega)
        (fun i hi => htr (i + 1) (Nat.succ_lt_succ hi))
        hsucc
      simp only [reqLoop, h0, ht0.2, Bool.false_eq_true, if_false]
      rw [if_pos ⟨ht0.1, hle⟩]
      refine ⟨IH.1, ?_, ?_⟩
      · rw [IH.2.1]; omega
      · simp only [countCalls, IH.2.2]

/-- C3: a run of transient statuses (from {429,500,502,503,504}, outside the
success set) occurring only while retry budget remains, followed by a
success-set status, makes `_request` retry past them and return the body of
the first successful response, making exactly `n+1` calls. -/
theorem C3_transient_retry (c : Client) (server : Nat → NetResult)
    (fuel k : Nat) (method path : String) (expected : Option (List Nat))
    (params : Option (List (String × JVal))) (json : Option JVal)
    (n : Nat) (rs : Nat → HttpResp)
    (hserv : ∀ i, i ≤ n → server (k + i) = NetResult.resp (rs i))
    (hbud : n ≤ c.retries) (hfuel : n < fuel)
    (htr : ∀ i, i < n → transientStatuses.contains (rs i).status = true ∧
      (expectedSet expected).contains (rs i).status = false)
    (hsucc : (expectedSet expected).contains (rs n).status = true) :
    (_request c server fuel k method path expected params json).1 =
      Outcome.ok (okBody (rs n)) ∧
    countCalls ((_request c server fuel k method path expected params json).2.2) =
      n + 1 := by
  have h := reqLoop_transient_run c server
    (ReqCall.mk method (buildUrl c path) params json) (expectedSet expected)
    n rs fuel 0 k hserv (by omega) hfuel htr hsucc
  exact ⟨h.1, h.2.2⟩

/-- C3 witness: with `retries=2, backoff=0` and responses `[500, 200]`,
`_request` returns the 200 body `{"ok": true}` on the second attempt, making
exactly 2 calls. -/
theorem C3_transient_retry_witness :
    (_request cTwoRetries (fun i => NetResult.resp (rs500then200 i)) 5 0
        "GET" "/rest/api/content" none none none).1 =
      Outcome.ok (JVal.obj [("ok", JVal.bool true)]) ∧
    countCalls ((_request cTwoRetries (fun i => NetResult.resp (rs500then200 i)) 5 0
        "GET" "/rest/api/content" none none none).2.2) = 2 :=
  C3_transient_retry cTwoRetries (fun i => NetResult.resp (rs500then200 i)) 5 0
    "GET" "/rest/api/content" none none none 1 rs500then200
    (fun i _ => by simp) (by decide) (by decide) (by decide) (by decide)

theorem reqLoop_exn_step (c : Client) (server : Nat → NetResult) (rc : ReqCall)
    (expSet : List Nat) (fuel attempt0 k : Nat) (e : String)
    (hs : server k = NetResult.exn e) :
    reqLoop c server rc expSet (fuel + 1) attempt0 k =
      if attempt0 + 1 ≤ c.retries then
        ((reqLoop c server rc expSet fuel (attempt0 + 1) (k + 1)).1,
          (reqLoop c server rc expSet fuel (attempt0 + 1) (k + 1)).2.1,
          Ev.call rc (NetResult.exn e) ::
            Ev.sleep (c.backoff * 2 ^ attempt0) ::
              (reqLoop c server rc expSet fuel (attempt0 + 1) (k + 1)).2.2)
      else (Outcome.exc (Exc.net e), k + 1, [Ev.call rc (NetResult.exn e)]) := by
  simp only [reqLoop, hs, Nat.add_sub_cancel]

theorem reqLoop_netfail_run (c : Client) (e : String) (rc : ReqCall)
    (expSet : List Nat) :
    ∀ (d attempt0 k : Nat), attempt0 + d = c.retries →
      (reqLoop c (fun _ => NetResult.exn e) rc expSet (d + 1) attempt0 k).1 =
        Outcome.exc (Exc.net e) ∧
      (reqLoop c (fun _ => NetResult.exn e) rc expSet (d + 1) attempt0 k).2.1 =
        k + d + 1 ∧
      countCalls ((reqLoop c (fun _ => NetResult.exn e) rc expSet (d + 1) attempt0 k).2.2) =
        d + 1 ∧
      sleepList ((reqLoop c (fun _ => NetResult.exn e) rc expSet (d + 1) attempt0 k).2.2) =
        (List.range d).map (fun i => c.backoff * 2 ^ (attempt0 + i)) := by
  intro d
  induction d with
  | zero =>
    intro attempt0 k h
    have hgt : ¬ (attempt0 + 1 ≤ c.retries) := by omega
    rw [reqLoop_exn_step c _ rc expSet 0 attempt0 k e rfl, if_neg hgt]
    exact ⟨rfl, rfl, rfl, rfl⟩
  | succ d ih =>
    intro attempt0 k h
    have hle : attempt0 + 1 ≤ c.retries := by omega
    have IH := ih (attempt0 + 1) (k + 1) (by omega)
    rw [reqLoop_exn_step c _ rc expSet (d + 1) attempt0 k e rfl, if_pos hle]
    refine ⟨IH.1, ?_, ?_, ?_⟩
    · show (reqLoop c (fun _ => NetResult.exn e) rc expSet (d + 1)
        (attempt0 + 1) (k + 1)).2.1 = k + (d + 1) + 1
      rw [IH.2.1]
      omega
    · show countCalls (Ev.call rc (NetResult.exn e) ::
        Ev.sleep (c.backoff * 2 ^ attempt0) ::
          (reqLoop c (fun _ => NetResult.exn e) rc expSet (d + 1)
            (attempt0 + 1) (k + 1)).2.2) = d + 1 + 1
      simp only [countCalls, IH.2.2.1]
    · show sleepList (Ev.call rc (NetResult.exn e) ::
        Ev.sleep (c.backoff * 2 ^ attempt0) ::
          (reqLoop c (fun _ => NetResult.exn e) rc expSet (d + 1)
            (attempt0 + 1) (k + 1)).2.2) =
        (List.range (d + 1)).map (fun i => c.backoff * 2 ^ (attempt0 + i))
      simp only [sleepList, IH.2.2.2]
      rw [List.range_succ_eq_map, List.map_cons, List.map_map]
      refine congrArg₂ List.cons (by rw [Nat.add_zero]) ?_
      refine List.map_congr_left (fun a _ => ?_)
      simp only [Function.comp_apply]
      congr 2
      omega

/-- C4: when every attempt fails at network level with the same error `e`,
`_request` retries the call `retries` additional times, sleeping
`backoff * 2^(attempt-1)` seconds before the retry of attempt number
`attempt` (so `backoff * 2^0, ..., backoff * 2^(retries-1)`), and once the
budget is exhausted re-raises the network error unchanged (`Exc.net e`, not
mapped to the error taxonomy), having made `retries + 1` calls. -/
theorem C4_network_retry_exhaust (c : Client) (e : String) (k : Nat)
    (method path : String) (expected : Option (List Nat))
    (params : Option (List (String × JVal))) (json : Option JVal) :
    (_request c (fun _ => NetResult.exn e) (c.retries + 1) k
        method path expected params json).1 = Outcome.exc (Exc.net e) ∧
    countCalls ((_request c (fun _ => NetResult.exn e) (c.retries + 1) k
        method path expected params json).2.2) = c.retries + 1 ∧
    sleepList ((_request c (fun _ => NetResult.exn e) (c.retries + 1) k
        method path expected params json).2.2) =
      (List.range c.retries).map (fun i => c.backoff * 2 ^ i) := by
  have h := reqLoop_netfail_run c e
    (ReqCall.mk method (buildUrl c path) params json) (expectedSet expected)
    c.retries 0 k (by omega)
  unfold _request
  refine ⟨h.1, h.2.2.1, ?_⟩
  rw [h.2.2.2]
  exact List.map_congr_left (fun a _ => by rw [Nat.zero_add])

theorem list_children_success (c : Client) (server : Nat → NetResult)
    (fuel k : Nat) (page_id : String) (limit start : Int) (xs : List JVal)
    (hs : server k = responseOk (resultsObj xs)) :
    list_children c server (fuel + 1) k page_id limit start =
      (ListOutcome.ok xs, k + 1,
        [Ev.call (ReqCall.mk "GET"
            (buildUrl c ("/rest/api/content/" ++ page_id ++ "/child/page"))
            (some [("limit", JVal.num (max 1 (min limit 100))),
                   ("start", JVal.num (max 0 start)),
                   ("expand", JVal.str "_links"),
                   ("status", JVal.str "current")]) none)
          (NetResult.resp (HttpResp.mk 200 none (some (resultsObj xs)) ""))]) := by
  have hs' : server k = NetResult.resp (HttpResp.mk 200 none (some (resultsObj xs)) "") := hs
  simp only [list_children, _request]
  rw [reqLoop_success_step c server
    (ReqCall.mk "GET" (buildUrl c ("/rest/api/content/" ++ page_id ++ "/child/page"))
      (some [("limit", JVal.num (max 1 (min limit 100))),
             ("start", JVal.num (max 0 start)),
             ("expand", JVal.str "_links"),
             ("status", JVal.str "current")]) none)
    (expectedSet none) fuel 0 k
    (HttpResp.mk 200 none (some (resultsObj xs)) "") hs' rfl]
  try rfl

theorem listAllLoop_success_step (c : Client) (server : Nat → NetResult)
    (ifuel : Nat) (page_id : String) (lfuel : Nat) (s : Int) (k : Nat)
    (xs : List JVal)
    (hs : server k = responseOk (resultsObj xs)) :
    listAllLoop c server (ifuel + 1) page_id (lfuel + 1) s k =
      (if xs.isEmpty then (ListOutcome.ok [], k + 1, [childEv c page_id s xs])
       else if xs.length < 100 then
         (ListOutcome.ok xs, k + 1, [childEv c page_id s xs])
       else
         match listAllLoop c server (ifuel + 1) page_id lfuel (s + 100) (k + 1) with
         | (ListOutcome.ok rest, k2, tr2) =>
           (ListOutcome.ok (xs ++ rest), k2, [childEv c page_id s xs] ++ tr2)
         | (o, k2, tr2) => (o, k2, [childEv c page_id s xs] ++ tr2)) := by
  simp only [listAllLoop]
  rw [list_children_success c server ifuel k page_id 100 s xs hs]
  try rfl

theorem callsOf_childEv (c : Client) (page_id : String) (s : Int)
    (xs : List JVal) (hs : 0 ≤ s) :
    callsOf [childEv c page_id s xs] = [childCall c page_id s] := by
  have h100 : max 1 (min (100 : Int) 100) = 100 := by decide
  simp [callsOf, childEv, childCall, h100, max_eq_right hs]

theorem flattenPages_succ (pages : Nat → List JVal) (n : Nat) :
    flattenPages pages (n + 1) = pages 0 ++ flattenPages (fun i => pages (i + 1)) n := by
  have h : List.range (n + 1 + 1) = 0 :: (List.range (n + 1)).map Nat.succ :=
    List.range_succ_eq_map (n + 1)
  unfold flattenPages
  rw [h, List.map_cons, List.map_map, List.flatten_cons]
  congr 1

theorem flattenPages_zero (pages : Nat → List JVal) :
    flattenPages pages 0 = pages 0 := by
  simp [flattenPages, List.range_succ]

theorem listAllLoop_run (c : Client) (server : Nat → NetResult) (page_id : String) :
    ∀ (n : Nat) (pages : Nat → List JVal) (lfuel ifuel : Nat) (s : Int) (k : Nat),
      (∀ i, i ≤ n → server (k + i) = responseOk (resultsObj (pages i))) →
      (∀ i, i < n → (pages i).length = 100) →
      (pages n).length < 100 → n < lfuel → 0 ≤ s →
      (listAllLoop c server (ifuel + 1) page_id lfuel s k).1 =
        ListOutcome.ok (flattenPages pages n) ∧
      (listAllLoop c server (ifuel + 1) page_id lfuel s k).2.1 = k + n + 1 ∧
      callsOf ((listAllLoop c server (ifuel + 1) page_id lfuel s k).2.2) =
        (List.range (n + 1)).map (fun i : Nat => childCall c page_id (s + 100 * (i : Int))) := by
  intro n
  induction n with
  | zero =>
    intro pages lfuel ifuel s k hserv _ hshort hl hs
    cases lfuel with
    | zero => omega
    | succ lf =>
      have h0 : server (k + 0) = responseOk (resultsObj (pages 0)) :=
        hserv 0 (Nat.le_refl 0)
      rw [Nat.add_zero] at h0
      rw [listAllLoop_success_step c server ifuel page_id lf s k (pages 0) h0]
      by_cases he : (pages 0).isEmpty
      · rw [if_pos he]
        have hnil : pages 0 = [] := by rwa [List.isEmpty_iff] at he
        refine ⟨?_, rfl, ?_⟩
        · rw [flattenPages_zero, hnil]
        · rw [callsOf_childEv c page_id s (pages 0) hs]
          simp [List.range_succ]
      · rw [if_neg he, if_pos hshort]
        refine ⟨by rw [flattenPages_zero], rfl, ?_⟩
        rw [callsOf_childEv c page_id s (pages 0) hs]
        simp [List.range_succ]
  | succ n ih =>
    intro pages lfuel ifuel s k hserv hfull hshort hl hs
    cases lfuel with
    | zero => omega
    | succ lf =>
      have h0 : server (k + 0) = responseOk (resultsObj (pages 0)) :=
        hserv 0 (Nat.zero_le _)
      rw [Nat.add_zero] at h0
      have hlen0 : (pages 0).length = 100 := hfull 0 (Nat.succ_pos n)
      have hne : ¬ ((pages 0).isEmpty = true) := by
        rw [List.isEmpty_iff]
        intro hnil
        rw [hnil] at hlen0
        simp at hlen0
      have IH := ih (fun i => pages (i + 1)) lf ifuel (s + 100) (k + 1)
        (fun i hi => by
          have := hserv (i + 1) (Nat.succ_le_succ hi)
          rwa [show k + (i + 1) = k + 1 + i by omega] at this)
        (fun i hi => hfull (i + 1) (Nat.succ_lt_succ hi))
        hshort (by omega) (by omega)
      rw [listAllLoop_success_step c server ifuel page_id lf s k (pages 0) h0]
      rw [if_neg hne, if_neg (by omega : ¬ (pages 0).length < 100)]
      rcases hres : listAllLoop c server (ifuel + 1) page_id lf (s + 100) (k + 1)
        with ⟨o2, k2, tr2⟩
      rw [hres] at IH
      have ho2 : o2 = ListOutcome.ok (flattenPages (fun i => pages (i + 1)) n) := IH.1
      have hk2 : k2 = k + 1 + n + 1 := IH.2.1
      have htr2 : callsOf tr2 = (List.range (n + 1)).map
          (fun i : Nat => childCall c page_id (s + 100 + 100 * (i : Int))) := IH.2.2
      subst ho2
      refine ⟨?_, ?_, ?_⟩
      · show ListOutcome.ok (pages 0 ++ flattenPages (fun i => pages (i + 1)) n) =
          ListOutcome.ok (flattenPages pages (n + 1))
        rw [flattenPages_succ]
      · show k2 = k + (n + 1) + 1
        omega
      · show callsOf ([childEv c page_id s (pages 0)] ++ tr2) =
          (List.range (n + 1 + 1)).map (fun i : Nat => childCall c page_id (s + 100 * (i : Int)))
        rw [callsOf_append, callsOf_childEv c page_id s (pages 0) hs, htr2,
          List.singleton_append, List.range_succ_eq_map (n + 1), List.map_cons,
          List.map_map]
        refine congrArg₂ List.cons ?_ ?_
        · norm_num
        · refine List.map_congr_left (fun a _ => ?_)
          simp only [Function.comp_apply]
          congr 1
          push_cast
          ring

/-- C5: when the server's pages 0..n-1 each hold exactly 100 items and page
n holds fewer than 100 (possibly zero), `list_all_children` requests pages of
size 100 at offsets 0, 100, ..., 100·n, stops after the first short page, and
returns the concatenation of all fetched pages in request order, making
exactly `n+1` calls. -/
theorem C5_list_all_children (c : Client) (server : Nat → NetResult)
    (page_id : String) (n : Nat) (pages : Nat → List JVal)
    (lfuel ifuel k : Nat)
    (hserv : ∀ i, i ≤ n → server (k + i) = responseOk (resultsObj (pages i)))
    (hfull : ∀ i, i < n → (pages i).length = 100)
    (hshort : (pages n).length < 100)
    (hl : n < lfuel) :
    (list_all_children c server (ifuel + 1) lfuel k page_id).1 =
      ListOutcome.ok (flattenPages pages n) ∧
    countCalls ((list_all_children c server (ifuel + 1) lfuel k page_id).2.2) =
      n + 1 ∧
    callsOf ((list_all_children c server (ifuel + 1) lfuel k page_id).2.2) =
      (List.range (n + 1)).map (fun i : Nat => childCall c page_id (100 * (i : Int))) := by
  have h := listAllLoop_run c server page_id n pages lfuel ifuel 0 k
    hserv hfull hshort hl (le_refl 0)
  unfold list_all_children
  refine ⟨h.1, ?_, ?_⟩
  · rw [countCalls_eq_length, h.2.2]
    simp
  · rw [h.2.2]
    exact List.map_congr_left (fun a _ => by rw [Int.zero_add])

/-- C5 witness: one full page of 100 items followed by an empty page makes
`list_all_children` request offsets 0 and 100 with limit 100, make exactly 2
calls, and return the 100 items. -/
theorem C5_list_all_children_witness :
    (list_all_children cX serverChildren 3 4 0 "p").1 =
      ListOutcome.ok (flattenPages pagesW 1) ∧
    countCalls ((list_all_children cX serverChildren 3 4 0 "p").2.2) = 2 ∧
    callsOf ((list_all_children cX serverChildren 3 4 0 "p").2.2) =
      (List.range 2).map (fun i : Nat => childCall cX "p" (100 * (i : Int))) :=
  C5_list_all_children cX serverChildren "p" 1 pagesW 4 2 0
    (fun i _ => by simp [serverChildren]) (by decide) (by decide) (by decide)

theorem find?_first {α : Type} (p : α → Bool) :
    ∀ (rs1 : List α) (r : α) (rs2 : List α),
      (∀ x ∈ rs1, p x = false) → p r = true →
      List.find? p (rs1 ++ r :: rs2) = some r := by
  intro rs1
  induction rs1 with
  | nil =>
    intro r rs2 _ hp
    simp [List.find?_cons_of_pos, hp]
  | cons a tl ih =>
    intro r rs2 hall hp
    have ha : ¬ (p a = true) := by
      rw [hall a (List.mem_cons_self a tl)]
      exact Bool.false_ne_true
    rw [List.cons_append, List.find?_cons_of_neg _ ha]
    exact ih r rs2 (fun x hx => hall x (List.mem_cons_of_mem a hx)) hp

theorem find_page_by_title_success (c : Client) (server : Nat → NetResult)
    (fuel k : Nat) (title space_key : String) (parent_id : Option String)
    (res : JVal) (hs : server k = responseOk res) :
    find_page_by_title c server (fuel + 1) k title space_key parent_id =
      (let ev := Ev.call (ReqCall.mk "GET" (buildUrl c "/rest/api/content")
          (some [("type", JVal.str "page"),
                 ("spaceKey", JVal.str space_key),
                 ("title", JVal.str title),
                 ("expand", JVal.str "ancestors,version,_links"),
                 ("status", JVal.str "current"),
                 ("limit", JVal.num 25)]) none)
          (NetResult.resp (HttpResp.mk 200 none (some res) ""))
       if (resultsList res).isEmpty then (OptOutcome.ok none, k + 1, [ev])
       else match parent_id with
         | none => (OptOutcome.ok (resultsList res).head?, k + 1, [ev])
         | some pid =>
           (OptOutcome.ok ((resultsList res).find? (fun r => hasAncestor r pid)),
             k + 1, [ev])) := by
  have hs' : server k = NetResult.resp (HttpResp.mk 200 none (some res) "") := hs
  simp only [find_page_by_title, _request]
  rw [reqLoop_success_step c server
    (ReqCall.mk "GET" (buildUrl c "/rest/api/content")
      (some [("type", JVal.str "page"),
             ("spaceKey", JVal.str space_key),
             ("title", JVal.str title),
             ("expand", JVal.str "ancestors,version,_links"),
             ("status", JVal.str "current"),
             ("limit", JVal.num 25)]) none)
    (expectedSet none) fuel 0 k (HttpResp.mk 200 none (some res) "") hs' rfl]
  try rfl

/-- C6: `find_page_by_title` with a parent filter: when no result has an
ancestor whose id equals the parent id, it returns `None` even when the
result list is non-empty; and when some result does, it returns the first
such result in response order. -/
theorem C6_find_by_title_parent_filter :
    (∀ (c : Client) (server : Nat → NetResult) (fuel k : Nat)
        (title space_key pid : String) (res : JVal),
      server k = responseOk res →
      (∀ r ∈ resultsList res, hasAncestor r pid = false) →
      (find_page_by_title c server (fuel + 1) k title space_key (some pid)).1 =
        OptOutcome.ok none) ∧
    (∀ (c : Client) (server : Nat → NetResult) (fuel k : Nat)
        (title space_key pid : String) (res : JVal)
        (rs1 rs2 : List JVal) (r : JVal),
      server k = responseOk res →
      resultsList res = rs1 ++ r :: rs2 →
      hasAncestor r pid = true →
      (∀ x ∈ rs1, hasAncestor x pid = false) →
      (find_page_by_title c server (fuel + 1) k title space_key (some pid)).1 =
        OptOutcome.ok (some r)) := by
  constructor
  · intro c server fuel k title space_key pid res hs hnone
    rw [find_page_by_title_success c server fuel k title space_key (some pid) res hs]
    by_cases hemp : (resultsList res).isEmpty = true
    · rw [if_pos hemp]
    · rw [if_neg hemp]
      show OptOutcome.ok ((resultsList res).find? (fun r => hasAncestor r pid)) =
        OptOutcome.ok none
      rw [List.find?_eq_none.mpr (fun x hx => by
        rw [hnone x hx]
        exact Bool.false_ne_true)]
  · intro c server fuel k title space_key pid res rs1 rs2 r hs hsplit hanc hfirst
    rw [find_page_by_title_success c server fuel k title space_key (some pid) res hs]
    have hemp : ¬ ((resultsList res).isEmpty = true) := by
      rw [hsplit]
      simp
    rw [if_neg hemp]
    show OptOutcome.ok ((resultsList res).find? (fun x => hasAncestor x pid)) =
      OptOutcome.ok (some r)
    rw [hsplit, find?_first _ rs1 r rs2 hfirst hanc]

/-- C6 witness: with two same-titled results whose single ancestors have ids
99 and 5, a parent filter of "7" (matching neither) yields `None`, and a
parent filter of "5" yields the second result. -/
theorem C6_find_by_title_parent_filter_witness :
    (find_page_by_title cX serverTwoResults 3 0 "T" "SP" (some "7")).1 =
      OptOutcome.ok none ∧
    (find_page_by_title cX serverTwoResults 3 0 "T" "SP" (some "5")).1 =
      OptOutcome.ok (some rAnc5) :=
  ⟨C6_find_by_title_parent_filter.1 cX serverTwoResults 2 0 "T" "SP" "7"
      resTwoResults rfl (by decide),
   C6_find_by_title_parent_filter.2 cX serverTwoResults 2 0 "T" "SP" "5"
      resTwoResults [rAnc99] [] rAnc5 rfl rfl (by decide) (by decide)⟩

theorem get_page_success (c : Client) (server : Nat → NetResult) (fuel k : Nat)
    (page_id : String) (current : JVal)
    (hs : server k = responseOk current) :
    get_page c server (fuel + 1) k page_id =
      (Outcome.ok current, k + 1,
        [Ev.call (ReqCall.mk "GET" (buildUrl c ("/rest/api/content/" ++ page_id))
            (some [("expand", JVal.str "version,ancestors,body.storage,_links")]) none)
          (NetResult.resp (HttpResp.mk 200 none (some current) ""))]) := by
  have hs' : server k = NetResult.resp (HttpResp.mk 200 none (some current) "") := hs
  simp only [get_page, _request]
  rw [reqLoop_success_step c server
    (ReqCall.mk "GET" (buildUrl c ("/rest/api/content/" ++ page_id))
      (some [("expand", JVal.str "version,ancestors,body.storage,_links")]) none)
    (expectedSet none) fuel 0 k (HttpResp.mk 200 none (some current) "") hs' rfl]
  try rfl

theorem nthCall_succ_call (rc0 : ReqCall) (res0 : NetResult) (tr : List Ev)
    (i : Nat) :
    nthCall (i + 1) (Ev.call rc0 res0 :: tr) = nthCall i tr := by
  simp [nthCall, callsOf]

theorem nthCall_zero_append (tr rest : List Ev) (rc : ReqCall)
    (h : nthCall 0 tr = some rc) :
    nthCall 0 (tr ++ rest) = some rc := by
  have hlen : 0 < (callsOf tr).length := (List.getElem?_eq_some.mp h).1
  unfold nthCall at h ⊢
  rw [callsOf_append, List.getElem?_append_left hlen]
  exact h

theorem nthCall_zero_request (c : Client) (server : Nat → NetResult)
    (fuel k : Nat) (method path : String) (expected : Option (List Nat))
    (params : Option (List (String × JVal))) (json : Option JVal) :
    nthCall 0 ((_request c server (fuel + 1) k method path expected params json).2.2) =
      some (ReqCall.mk method (buildUrl c path) params json) :=
  nthCall_zero_reqLoop c server
    (ReqCall.mk method (buildUrl c path) params json) (expectedSet expected) fuel 0 k

theorem update_page_put_call (c : Client) (server : Nat → NetResult)
    (fuel k : Nat) (page_id body_html : String) (title : Option String)
    (minor_edit notify_watchers retry0 : Bool) (current : JVal)
    (hs : server k = responseOk current) :
    nthCall 1 ((update_page c server (fuel + 1) k page_id body_html title
        minor_edit notify_watchers retry0).2.2) =
      some (ReqCall.mk "PUT" (buildUrl c ("/rest/api/content/" ++ page_id))
        (some [("notifyWatchers", JVal.str (pyBoolStr notify_watchers))])
        (some (updatePayloadWith page_id ((jget current "type").getD (JVal.str "page"))
          (mergedTitle title current) minor_edit body_html
          (currentVersionNumber current + 1)))) := by
  have hg := get_page_success c server fuel k page_id current hs
  have hput := nthCall_zero_request c server fuel (k + 1) "PUT"
    ("/rest/api/content/" ++ page_id) (some [200])
    (some [("notifyWatchers", JVal.str (pyBoolStr notify_watchers))])
    (some (updatePayloadWith page_id ((jget current "type").getD (JVal.str "page"))
      (mergedTitle title current) minor_edit body_html
      (currentVersionNumber current + 1)))
  simp only [update_page, hg]
  split
  · next j k2 tr2 heq =>
    rw [heq] at hput
    exact (nthCall_succ_call _ _ tr2 0).trans hput
  · next e k2 tr2 heq =>
    rw [heq] at hput
    by_cases hc : (retry0 && strContains (excMsg e) "409") = true
    · rw [if_pos hc]
      split
      · next cur2 k3 tr3 heq2 =>
        exact (nthCall_succ_call _ _ _ 0).trans
          (nthCall_zero_append _ _ _ (nthCall_zero_append _ _ _ hput))
      · next o3 k3 tr3 heq2 =>
        exact (nthCall_succ_call _ _ _ 0).trans
          (nthCall_zero_append _ _ _ hput)
    · rw [if_neg hc]
      exact (nthCall_succ_call _ _ tr2 0).trans hput
  · next k2 tr2 heq =>
    rw [heq] at hput
    exact (nthCall_succ_call _ _ tr2 0).trans hput

/-- C7 (amended): after the initial fetch returns page `current`, the first
PUT payload of `update_page` carries version number = fetched version + 1,
the minor-edit flag and the new storage-format body; its title is the
explicit title argument when that is given and non-empty, and the fetched
page's title when the argument is `None` — or when it is the empty string,
which Python's `or` also sends to the fallback. -/
theorem C7_update_payload (c : Client) (server : Nat → NetResult)
    (fuel k : Nat) (page_id body_html : String) (title : Option String)
    (minor_edit notify_watchers retry0 : Bool) (current : JVal)
    (hs : server k = responseOk current) :
    ((nthCall 1 ((update_page c server (fuel + 1) k page_id body_html title
        minor_edit notify_watchers retry0).2.2)).map ReqCall.method = some "PUT") ∧
    (((nthCall 1 ((update_page c server (fuel + 1) k page_id body_html title
        minor_edit notify_watchers retry0).2.2)).bind (fun rc => rc.body)).bind
        (fun p => jget p "version") =
      some (JVal.obj [("number", JVal.num (currentVersionNumber current + 1)),
        ("minorEdit", JVal.bool minor_edit)])) ∧
    (((nthCall 1 ((update_page c server (fuel + 1) k page_id body_html title
        minor_edit notify_watchers retry0).2.2)).bind (fun rc => rc.body)).bind
        (fun p => jget p "body") =
      some (JVal.obj [("storage", JVal.obj [("value", JVal.str body_html),
        ("representation", JVal.str "storage")])])) ∧
    (∀ t, title = some t → t ≠ "" →
      ((nthCall 1 ((update_page c server (fuel + 1) k page_id body_html title
          minor_edit notify_watchers retry0).2.2)).bind (fun rc => rc.body)).bind
          (fun p => jget p "title") = some (JVal.str t)) ∧
    (title = none →
      ((nthCall 1 ((update_page c server (fuel + 1) k page_id body_html title
          minor_edit notify_watchers retry0).2.2)).bind (fun rc => rc.body)).bind
          (fun p => jget p "title") = some ((jget current "title").getD JVal.null)) ∧
    (title = some "" →
      ((nthCall 1 ((update_page c server (fuel + 1) k page_id body_html title
          minor_edit notify_watchers retry0).2.2)).bind (fun rc => rc.body)).bind
          (fun p => jget p "title") = some ((jget current "title").getD JVal.null)) := by
  have h := update_page_put_call c server fuel k page_id body_html title
    minor_edit notify_watchers retry0 current hs
  have htitle : ((nthCall 1 ((update_page c server (fuel + 1) k page_id body_html title
      minor_edit notify_watchers retry0).2.2)).bind (fun rc => rc.body)).bind
      (fun p => jget p "title") = some (mergedTitle title current) := by
    rw [h]
    rfl
  refine ⟨by rw [h]; rfl, by rw [h]; rfl, by rw [h]; rfl, ?_, ?_, ?_⟩
  · intro t ht hne
    subst ht
    rw [htitle]
    simp [mergedTitle, hne]
  · intro ht
    subst ht
    rw [htitle]
    rfl
  · intro ht
    subst ht
    rw [htitle]
    rfl

/-- C7 witness: fetching a version-1 page titled "T" and updating with
explicit title "New" sends a PUT whose payload has version number 2, the
minor-edit flag, the new storage body, and title "New". -/
theorem C7_update_payload_witness :
    ((nthCall 1 ((update_page cX serverConflict 6 0 "1" "<p>b</p>" (some "New")
        true true true).2.2)).map ReqCall.method = some "PUT") ∧
    (((nthCall 1 ((update_page cX serverConflict 6 0 "1" "<p>b</p>" (some "New")
        true true true).2.2)).bind (fun rc => rc.body)).bind
        (fun p => jget p "version") =
      some (JVal.obj [("number", JVal.num 2), ("minorEdit", JVal.bool true)])) ∧
    (((nthCall 1 ((update_page cX serverConflict 6 0 "1" "<p>b</p>" (some "New")
        true true true).2.2)).bind (fun rc => rc.body)).bind
        (fun p => jget p "title") = some (JVal.str "New")) := by
  have h := C7_update_payload cX serverConflict 5 0 "1" "<p>b</p>" (some "New")
    true true true (pageJ 1) rfl
  exact ⟨h.1, h.2.1, h.2.2.2.1 "New" rfl (by decide)⟩

/-- C7 counterexample: with the explicit title argument given as the empty
string and a fetched page titled "T", the first PUT's payload title is "T"
(the fetched title), not the given explicit title "" — so "the payload title
is the explicit title argument when given" fails at title = "". -/
theorem C7_counterexample_empty_title :
    (((nthCall 1 ((update_page cX serverConflict 6 0 "1" "<p>b</p>" (some "")
        true true true).2.2)).bind (fun rc => rc.body)).bind
        (fun p => jget p "title") = some (JVal.str "T")) ∧
    JVal.str "T" ≠ JVal.str "" :=
  ⟨by rfl, by simp⟩

/-- C1 (code-bug evaluation): against a server whose first PUT answer is a
genuine HTTP 409 with an unparseable body (page id "1"), `update_page`
raises the Conflict error after a single PUT and never re-fetches: the
message "PUT https://x/rest/api/content/1" does not contain "409", so the
substring-based retry test fails, contradicting the claim (and the
function's own docstring) that a 409 first PUT leads to exactly two PUTs
and the second response's body. -/
theorem C1_conflict_retry_code_bug :
    nthCallStatus 1 ((update_page cX serverConflict 6 0 "1" "<p>b</p>" none
        true true true).2.2) = some 409 ∧
    (update_page cX serverConflict 6 0 "1" "<p>b</p>" none true true true).1 =
      Outcome.exc (Exc.conf (ConfErr.conflict "PUT https://x/rest/api/content/1")) ∧
    countMethod "PUT" ((update_page cX serverConflict 6 0 "1" "<p>b</p>" none
        true true true).2.2) = 1 ∧
    countCalls ((update_page cX serverConflict 6 0 "1" "<p>b</p>" none
        true true true).2.2) = 2 ∧
    strContains "PUT https://x/rest/api/content/1" "409" = false :=
  ⟨by rfl, by rfl, by rfl, by rfl, by rfl⟩

/-- C10: the conflict retry of `update_page` is decided by searching the
string "409" in `str(e)`: (a) for page id "409", a first PUT answered 404 —
a NotFound, not a Conflict — still triggers the retry because the URL puts
"409" into the error message, so a second PUT happens and its 200 body is
returned; (b) a genuine 409 whose message text lacks "409" (page id "1",
empty payload) does not trigger the retry — the Conflict propagates after a
single PUT. -/
theorem C10_retry_decided_by_substring :
    ((update_page cX serverNotFoundPut 6 0 "409" "<p>b</p>" none true true true).1 =
        Outcome.ok (JVal.bool true) ∧
      nthCallStatus 1 ((update_page cX serverNotFoundPut 6 0 "409" "<p>b</p>" none
          true true true).2.2) = some 404 ∧
      countMethod "PUT" ((update_page cX serverNotFoundPut 6 0 "409" "<p>b</p>" none
          true true true).2.2) = 2 ∧
      strContains "PUT https://x/rest/api/content/409" "409" = true) ∧
    (nthCallStatus 1 ((update_page cX serverConflict 6 0 "1" "<p>b</p>" none
        true true true).2.2) = some 409 ∧
      raisedKind (update_page cX serverConflict 6 0 "1" "<p>b</p>" none
        true true true).1 = some ErrKind.conflict ∧
      countMethod "PUT" ((update_page cX serverConflict 6 0 "1" "<p>b</p>" none
          true true true).2.2) = 1) :=
  ⟨⟨by rfl, by rfl, by rfl, by rfl⟩, ⟨by rfl, by rfl, by rfl⟩⟩

theorem sentParamVal_request (c : Client) (server : Nat → NetResult)
    (fuel k : Nat) (method path : String) (expected : Option (List Nat))
    (params : Option (List (String × JVal))) (json : Option JVal)
    (key : String) :
    sentParamVal key ((_request c server (fuel + 1) k method path expected params json).2.2) =
      params.bind (List.lookup key) := by
  unfold sentParamVal sentParams
  rw [nthCall_zero_request]
  rfl

theorem list_children_trace (c : Client) (server : Nat → NetResult)
    (fuel k : Nat) (page_id : String) (limit start : Int) :
    (list_children c server fuel k page_id limit start).2.2 =
      (_request c server fuel k "GET"
        ("/rest/api/content/" ++ page_id ++ "/child/page") none
        (some [("limit", JVal.num (max 1 (min limit 100))),
               ("start", JVal.num (max 0 start)),
               ("expand", JVal.str "_links"),
               ("status", JVal.str "current")]) none).2.2 := by
  simp only [list_children]
  rcases _request c server fuel k "GET"
    ("/rest/api/content/" ++ page_id ++ "/child/page") none
    (some [("limit", JVal.num (max 1 (min limit 100))),
           ("start", JVal.num (max 0 start)),
           ("expand", JVal.str "_links"),
           ("status", JVal.str "current")]) none with ⟨o, k1, tr⟩
  cases o <;> rfl

theorem search_cql_trace (c : Client) (server : Nat → NetResult)
    (fuel k : Nat) (cql : String) (limit start : Int) :
    (search_cql c server fuel k cql limit start).2.2 =
      (_request c server fuel k "GET" "/rest/api/search" none
        (some [("cql", JVal.str cql),
               ("limit", JVal.num (max 1 (min limit 100))),
               ("start", JVal.num (max 0 start)),
               ("expand", JVal.str "content._links")]) none).2.2 := by
  simp only [search_cql]
  rcases _request c server fuel k "GET" "/rest/api/search" none
    (some [("cql", JVal.str cql),
           ("limit", JVal.num (max 1 (min limit 100))),
           ("start", JVal.num (max 0 start)),
           ("expand", JVal.str "content._links")]) none with ⟨o, k1, tr⟩
  cases o <;> rfl

/-- C8: the pagination query parameters actually sent by
`list_pages_in_space`, `list_children` and `search_cql` are
`limit = max(1, min(limit, 100))` (the caller's value clamped to the nearest
bound of [1,100]) and `start = max(0, start)`, and these sent values always
satisfy 1 ≤ limit ≤ 100 and start ≥ 0. -/
theorem C8_pagination_clamping :
    (∀ (c : Client) (server : Nat → NetResult) (fuel k : Nat)
        (space_key : String) (limit start : Int) (tc : Option String),
      sentParamVal "limit" ((list_pages_in_space c server (fuel + 1) k
          space_key limit start tc).2.2) =
        some (JVal.num (max 1 (min limit 100))) ∧
      sentParamVal "start" ((list_pages_in_space c server (fuel + 1) k
          space_key limit start tc).2.2) =
        some (JVal.num (max 0 start))) ∧
    (∀ (c : Client) (server : Nat → NetResult) (fuel k : Nat)
        (page_id : String) (limit start : Int),
      sentParamVal "limit" ((list_children c server (fuel + 1) k
          page_id limit start).2.2) =
        some (JVal.num (max 1 (min limit 100))) ∧
      sentParamVal "start" ((list_children c server (fuel + 1) k
          page_id limit start).2.2) =
        some (JVal.num (max 0 start))) ∧
    (∀ (c : Client) (server : Nat → NetResult) (fuel k : Nat)
        (cql : String) (limit start : Int),
      sentParamVal "limit" ((search_cql c server (fuel + 1) k
          cql limit start).2.2) =
        some (JVal.num (max 1 (min limit 100))) ∧
      sentParamVal "start" ((search_cql c server (fuel + 1) k
          cql limit start).2.2) =
        some (JVal.num (max 0 start))) ∧
    (∀ limit start : Int,
      1 ≤ max 1 (min limit 100) ∧ max 1 (min limit 100) ≤ 100 ∧
      0 ≤ max 0 start) := by
  refine ⟨?_, ?_, ?_, ?_⟩
  · intro c server fuel k space_key limit start tc
    have htr : (list_pages_in_space c server (fuel + 1) k space_key limit start tc).2.2 =
        (_request c server (fuel + 1) k "GET" "/rest/api/content" none
          (some (lpsParams space_key limit start tc)) none).2.2 := by
      simp only [list_pages_in_space]
      rcases _request c server (fuel + 1) k "GET" "/rest/api/content" none
        (some (lpsParams space_key limit start tc)) none with ⟨o, k1, tr⟩
      cases o <;> rfl
    rw [htr, sentParamVal_request, sentParamVal_request]
    have hred : ∀ key : String,
        List.lookup key (lpsParams space_key limit start tc) =
        List.lookup key ([("type", JVal.str "page"),
            ("spaceKey", JVal.str space_key),
            ("limit", JVal.num (max 1 (min limit 100))),
            ("start", JVal.num (max 0 start)),
            ("expand", JVal.str "_links"),
            ("status", JVal.str "current")] ++
          (match tcTruthy tc with
            | some t => [("title", JVal.str t)]
            | none => [])) := by
      intro key
      unfold lpsParams
      rcases tcTruthy tc with _ | t
      · simp
      · rfl
    constructor
    · show List.lookup "limit" (lpsParams space_key limit start tc) =
        some (JVal.num (max 1 (min limit 100)))
      rw [hred]
      rfl
    · show List.lookup "start" (lpsParams space_key limit start tc) =
        some (JVal.num (max 0 start))
      rw [hred]
      rfl
  · intro c server fuel k page_id limit start
    rw [list_children_trace, sentParamVal_request, sentParamVal_request]
    exact ⟨rfl, rfl⟩
  · intro c server fuel k cql limit start
    rw [search_cql_trace, sentParamVal_request, sentParamVal_request]
    exact ⟨rfl, rfl⟩
  · intro limit start
    refine ⟨le_max_left 1 _, max_le (by norm_num) (min_le_right _ _), le_max_left 0 _⟩

end Confluence
